import Mathlib

/-!
Verification of `src/fetchUSDFromPyth.js` (Pyth price-feed demo script).

The script is sequential glue over two external libraries (the Pyth price
service client and ethers).  We embed it shallowly: every external effect
(SDK call, HTTP fetch, JSON-RPC call) is a field of an environment record
whose value is the response the outside world gives in this invocation
(`Except String _` when the call can reject); JS numbers are modelled as
exact rationals; thrown JS errors are `Except.error msg` carrying the
message string; `console` output is collected in ordered `List String`
traces.  Each definition mirrors one function of the script.
-/

namespace PythDemo

/-! ### JS string operations

`String.prototype.includes` and the "0x"-prefixed check are modelled by
explicit character-list scans. -/

/-- Models the check that `pat` occurs at the start of `s` (character lists). -/
def startsWithChars : List Char → List Char → Bool
  | [], _ => true
  | _ :: _, [] => false
  | p :: ps, c :: cs => p == c && startsWithChars ps cs

/-- Models occurrence of `pat` anywhere in a character list. -/
def containsChars (pat : List Char) : List Char → Bool
  | [] => startsWithChars pat []
  | c :: cs => startsWithChars pat (c :: cs) || containsChars pat cs

/-- Models JS `s.includes(pat)`. -/
def strIncludes (s pat : String) : Bool :=
  containsChars pat.data s.data

/-! ### Hex encoding (`Buffer.prototype.toString("hex")`) -/

/-- Lower-case hex digit for a value below 16 (as produced by Node hex encoding). -/
def hexDigitChar (n : Nat) : Char :=
  if n < 10 then Char.ofNat (48 + n) else Char.ofNat (87 + n)

/-- Two-digit lower-case hex encoding of one byte. -/
def byteToHex (b : Nat) : String :=
  ⟨[hexDigitChar (b / 16 % 16), hexDigitChar (b % 16)]⟩

/-- Models `Buffer.from(bytes).toString("hex")`: concatenation of two hex digits per byte. -/
def bytesToHex : List Nat → String
  | [] => ""
  | b :: bs => byteToHex b ++ bytesToHex bs

/-- A character is a lower-case hex digit. -/
def isHexDigitLower (c : Char) : Bool :=
  (48 ≤ c.toNat && c.toNat ≤ 57) || (97 ≤ c.toNat && c.toNat ≤ 102)

/-! ### Data model (spec §3) -/

/-- PriceObservation: the record returned by `getPriceUnchecked()` on the SDK
path, and the `price` member of a REST feed.  JS numbers are modelled as
exact rationals, the exponent as an integer. -/
structure PriceObs where
  price : ℚ
  expo : ℤ
  publishTime : ℤ
deriving Repr, DecidableEq

/-- A price feed object of the SDK (`priceFeeds[i]`); `obs` models
`getPriceUnchecked()`. -/
structure PriceFeed where
  obs : PriceObs
deriving Repr, DecidableEq

/-- The readable price computed at line 89 of the script (SDK path):
`Number(price.price) * Math.pow(10, price.expo)`. -/
def readablePriceSdk (price : PriceObs) : ℚ :=
  price.price * (10 : ℚ) ^ price.expo

/-- The readable price computed at lines 138-139 (REST path):
`Number(priceData.price) * Math.pow(10, priceData.expo)`. -/
def readablePriceRest (priceData : PriceObs) : ℚ :=
  priceData.price * (10 : ℚ) ^ priceData.expo

/-- Written from the spec text, for comparison: "Decoded price = price × 10^exponent". -/
def specDecodedPrice (price : ℚ) (exponent : ℤ) : ℚ :=
  price * (10 : ℚ) ^ exponent

/-! ### Step 1: `getPriceUpdateData` and its REST fallback -/

/-- Environment for the primary (SDK) path of `getPriceUpdateData`:
what `priceService` returns in this invocation.  `getLatestPriceFeeds`
is `Except.error msg` when the awaited call rejects; a JS `null` result
is modelled as the empty list (both fail the `priceFeeds && priceFeeds.length > 0`
test identically). -/
structure SdkEnv where
  getLatestPriceFeeds : Except String (List PriceFeed)
  hasGetPriceUpdatesData : Bool
  getPriceUpdatesData : List PriceFeed → List String
  hasGetPriceFeedsUpdateData : Bool
  getPriceFeedsUpdateData : List PriceFeed → List String
  serialize : PriceFeed → String

/-- The body of the `try` block of `getPriceUpdateData` (lines 81-113):
fetch latest feeds, pick the serialization method that exists, or throw
"No price feeds available" when the feed list is missing or empty. -/
def primaryUpdateData (sdk : SdkEnv) : Except String (List String) :=
  match sdk.getLatestPriceFeeds with
  | .error e => .error e
  | .ok priceFeeds =>
    if priceFeeds.length > 0 then
      .ok (if sdk.hasGetPriceUpdatesData then sdk.getPriceUpdatesData priceFeeds
           else if sdk.hasGetPriceFeedsUpdateData then sdk.getPriceFeedsUpdateData priceFeeds
           else priceFeeds.map (fun priceFeed => sdk.serialize priceFeed))
    else .error "No price feeds available"

/-- One REST feed object (`data[i]`); the script reads its `price` member. -/
structure RestFeed where
  price : PriceObs
deriving Repr, DecidableEq

/-- An HTTP response as seen by the script: `ok` flag, `status`, parsed JSON body. -/
structure HttpResp (α : Type) where
  ok : Bool
  status : Nat
  json : α
deriving Repr, DecidableEq

/-- Environment for `getPriceUpdateDataViaRest`: the two Hermes endpoints
(`latest_price_feeds`, `latest_vaas`) and the base64 decoder
(`Buffer.from(vaa, "base64")`, kept abstract as a byte-list producer).
A rejected `fetch` is `Except.error msg`. -/
structure RestEnv where
  priceFeedsResp : Except String (HttpResp (List RestFeed))
  vaasResp : Except String (HttpResp (List String))
  base64Decode : String → List Nat

/-- `getPriceUpdateDataViaRest` (lines 124-168): GET latest price feeds,
throw on a non-ok response or empty data, GET latest VAAs, throw on a
non-ok response, and return each VAA base64-decoded then hex-encoded with
a "0x" prefix.  The surrounding catch logs and rethrows the same error,
so errors propagate unchanged. -/
def getPriceUpdateDataViaRest (env : RestEnv) : Except String (List String) :=
  match env.priceFeedsResp with
  | .error e => .error e
  | .ok response =>
    if !response.ok then .error ("HTTP error! status: " ++ toString response.status)
    else
      match response.json with
      | [] => .error "No price data available from REST API"
      | _ :: _ =>
        match env.vaasResp with
        | .error e => .error e
        | .ok vaaResponse =>
          if !vaaResponse.ok then .error ("VAA fetch error! status: " ++ toString vaaResponse.status)
          else .ok (vaaResponse.json.map (fun vaa => "0x" ++ bytesToHex (env.base64Decode vaa)))

/-- Result of `getPriceUpdateData`, with invocation counters for the two paths. -/
structure UpdateDataResult where
  primaryCalls : Nat
  restCalls : Nat
  result : Except String (List String)

/-- `getPriceUpdateData` (lines 78-121): try the SDK path; on any throw,
call `getPriceUpdateDataViaRest` exactly once and return its outcome. -/
def getPriceUpdateData (sdk : SdkEnv) (rest : RestEnv) : UpdateDataResult :=
  match primaryUpdateData sdk with
  | .ok updateData => { primaryCalls := 1, restCalls := 0, result := .ok updateData }
  | .error _ => { primaryCalls := 1, restCalls := 1, result := getPriceUpdateDataViaRest rest }

/-! ### Step 2: `checkBalance` -/

/-- Models `parseFloat(ethers.formatEther(balance))`: the wei balance as an
exact rational number of ETH. -/
def formatEther (wei : Nat) : ℚ :=
  (wei : ℚ) / 10 ^ 18

/-- The low-balance warning text (lines 180-182). -/
def lowBalanceWarning : String :=
  "⚠️  Warning: Low balance! You might need more ETH for gas fees."

/-- Result of `checkBalance`: its console warnings and its return value. -/
structure BalanceResult where
  logs : List String
  balance : Nat
deriving Repr, DecidableEq

/-- `checkBalance` (lines 171-186): print the balance, warn when it is below
0.01 ETH, and in every case return the balance.  The function body cannot
throw; only the `getBalance` call itself can reject, which is modelled at the
`main` level. -/
def checkBalance (balance : Nat) : BalanceResult :=
  let balanceInETH := formatEther balance
  { logs := if balanceInETH < 1 / 100 then [lowBalanceWarning] else [],
    balance := balance }

/-! ### Step 3: `callFetchUSDPrice` -/

/-- The argument bundle of `this.contract.fetchUSDPrice(priceUpdateData,
{value: updateFee, gasLimit: 500000})`. -/
structure TxRequest where
  priceUpdateData : List String
  value : Nat
  gasLimit : Nat
deriving Repr, DecidableEq

/-- A submitted transaction (only its hash is used by the script). -/
structure Tx where
  hash : String
deriving Repr, DecidableEq

/-- A transaction receipt (used only for console reporting). -/
structure TxReceipt where
  blockNumber : Nat
  gasUsed : Nat
deriving Repr, DecidableEq

/-- Environment for the on-chain calls of `callFetchUSDPrice`:
`getUpdateFee` on the Pyth contract (read-only, fee in wei as a uint256),
the `fetchUSDPrice` submission on the target contract, and `tx.wait()`. -/
structure ChainEnv where
  getUpdateFee : List String → Except String Nat
  fetchUSDPrice : TxRequest → Except String Tx
  txWait : Tx → Except String TxReceipt

/-- The error log printed first in the catch block (line 229). -/
def contractErrorLog (msg : String) : String :=
  "❌ Error calling contract method: " ++ msg

/-- The insufficient-funds hint (lines 233-235). -/
def tipInsufficientFunds : String :=
  "💡 Tip: You need more ETH in your wallet for gas fees and Pyth update fees."

/-- The execution-reverted hint (lines 237-239). -/
def tipExecutionReverted : String :=
  "💡 Tip: The contract call failed. Check if the price data is valid or if you have enough ETH for fees."

/-- Console output of the catch block of `callFetchUSDPrice` (lines 228-241):
the error log, then a hint chosen by an if/else-if chain on the message. -/
def catchLogs (msg : String) : List String :=
  contractErrorLog msg ::
    (if strIncludes msg "insufficient funds" then [tipInsufficientFunds]
     else if strIncludes msg "execution reverted" then [tipExecutionReverted]
     else [])

/-- Result of `callFetchUSDPrice`: catch-block console output, the argument
given to the `getUpdateFee` query (if reached), the argument bundle given to
the contract submission (if reached), and the outcome. -/
structure CallResult where
  logs : List String
  feeArg : Option (List String)
  sent : Option TxRequest
  result : Except String TxReceipt

/-- `callFetchUSDPrice` (lines 189-244): fetch the update payload, query the
update fee for that same payload, submit `fetchUSDPrice(priceUpdateData)`
with `value := updateFee` and `gasLimit := 500000`, await the receipt; any
throw lands in the catch block, which prints `catchLogs` and rethrows. -/
def callFetchUSDPrice (sdk : SdkEnv) (rest : RestEnv) (chain : ChainEnv) : CallResult :=
  match (getPriceUpdateData sdk rest).result with
  | .error msg => { logs := catchLogs msg, feeArg := none, sent := none, result := .error msg }
  | .ok priceUpdateData =>
    match chain.getUpdateFee priceUpdateData with
    | .error msg =>
      { logs := catchLogs msg, feeArg := some priceUpdateData, sent := none, result := .error msg }
    | .ok updateFee =>
      match chain.fetchUSDPrice
          { priceUpdateData := priceUpdateData, value := updateFee, gasLimit := 500000 } with
      | .error msg =>
        { logs := catchLogs msg, feeArg := some priceUpdateData,
          sent := some { priceUpdateData := priceUpdateData, value := updateFee,
                         gasLimit := 500000 },
          result := .error msg }
      | .ok tx =>
        match chain.txWait tx with
        | .error msg =>
          { logs := catchLogs msg, feeArg := some priceUpdateData,
            sent := some { priceUpdateData := priceUpdateData, value := updateFee,
                           gasLimit := 500000 },
            result := .error msg }
        | .ok receipt =>
          { logs := [], feeArg := some priceUpdateData,
            sent := some { priceUpdateData := priceUpdateData, value := updateFee,
                           gasLimit := 500000 },
            result := .ok receipt }

/-! ### Step 4: `monitorPrices` -/

/-- The per-sample state of `monitorPrices` (lines 252-253): `priceCount`
starts at 0 and `lastPrice` starts at 0. -/
structure MonitorState where
  priceCount : Nat
  lastPrice : ℚ
deriving Repr, DecidableEq

/-- Initial monitor state: `let priceCount = 0; let lastPrice = 0;`. -/
def monitorInit : MonitorState :=
  { priceCount := 0, lastPrice := 0 }

/-- The printed percent change: either the literal `0` of the false branch of
`lastPrice ? ... : 0`, or the computed percentage. -/
inductive ChangeVal where
  | lit0 : ChangeVal
  | pct : ℚ → ChangeVal
deriving Repr, DecidableEq

/-- Models `Number.prototype.toFixed(2)` as exact rounding to two decimals. -/
def toFixed2 (q : ℚ) : ℚ :=
  (round (q * 100) : ℚ) / 100

/-- The change computation of lines 264-266 and 293-295:
`lastPrice ? (((readablePrice - lastPrice) / lastPrice) * 100).toFixed(2) : 0`.
The truthiness test on the JS number `lastPrice` is `lastPrice ≠ 0`. -/
def changeOf (lastPrice readablePrice : ℚ) : ChangeVal :=
  if lastPrice ≠ 0 then .pct (toFixed2 ((readablePrice - lastPrice) / lastPrice * 100))
  else .lit0

/-- The arrow of lines 267 and 296: up for a positive change, down for a
negative one, neutral otherwise (the literal `0` compares neither above nor
below zero). -/
def arrowOf : ChangeVal → String
  | .lit0 => "➡️"
  | .pct q => if q > 0 then "📈" else if q < 0 then "📉" else "➡️"

/-- One invocation of the monitor callback body on a decoded price: bump
`priceCount`, compute change and arrow from the previous state, store the
new price as `lastPrice`. -/
def monitorStep (st : MonitorState) (readablePrice : ℚ) : MonitorState × ChangeVal × String :=
  ({ priceCount := st.priceCount + 1, lastPrice := readablePrice },
   changeOf st.lastPrice readablePrice,
   arrowOf (changeOf st.lastPrice readablePrice))

/-- Environment for `monitorPrices`: whether
`priceService.subscribePriceFeedUpdates` exists, at which times (ms) the
subscription delivers a price feed to the callback, and what
`getLatestPriceFeeds` returns at each polling time. -/
structure MonitorEnv where
  hasSubscribe : Bool
  subDeliversAt : Nat → Bool
  pollResult : Nat → Except String (List PriceFeed)

/-- A polling tick of the `setInterval(..., 5000)` loop is live at time `t`:
the interval fires at multiples of 5000 ms and is cleared by the
`setTimeout(() => clearInterval(interval), duration)` at `duration`. -/
def pollTickActive (duration t : Nat) : Bool :=
  5000 ≤ t && t % 5000 == 0 && t ≤ duration

/-- Whether `monitorPrices(duration)` prints a price line at time `t` (ms
after start).  Subscription path (lines 256-277): the callback is registered
and never unsubscribed, so it prints at every delivery time, with no bound;
the `setTimeout` at `duration` only prints a stop message.  Polling path
(lines 279-314): a line is printed at a live tick whose poll succeeds with a
non-empty feed list; a poll error is caught inside the tick (logged, no
price line) and never cancels the interval. -/
def priceOutputAt (env : MonitorEnv) (duration t : Nat) : Bool :=
  if env.hasSubscribe then
    env.subDeliversAt t
  else
    pollTickActive duration t &&
      (match env.pollResult t with
       | .ok priceFeeds => priceFeeds.length > 0
       | .error _ => false)

/-! ### `main` -/

/-- The configuration record (lines 11-25), with the environment-derived
fields free: `PRIVATE_KEY` is `process.env.PRIVATE_KEY` (absent = `none`),
`SEPOLIA_RPC_URL` and `YOUR_CONTRACT_ADDRESS` default to placeholders when
the variables are unset. -/
structure Config where
  SEPOLIA_RPC_URL : String
  PRIVATE_KEY : Option String
  YOUR_CONTRACT_ADDRESS : String

/-- The default used for `SEPOLIA_RPC_URL` when the variable is unset. -/
def rpcUrlPlaceholder : String :=
  "https://sepolia.infura.io/v3/YOUR_INFURA_KEY"

/-- The placeholder value of `YOUR_CONTRACT_ADDRESS` that `main` rejects. -/
def contractAddressPlaceholder : String :=
  "0x..."

/-- JS falsiness of `CONFIG.PRIVATE_KEY`: `undefined` or the empty string. -/
def privateKeyFalsy (cfg : Config) : Bool :=
  match cfg.PRIVATE_KEY with
  | none => true
  | some s => s == ""

/-- Environment for `main`: the `SimplePythScript` constructor outcome (an
invalid key makes `new ethers.Wallet` throw), the `provider.getBalance`
outcome, and the environments of the inner steps. -/
structure MainEnv where
  initResult : Except String Unit
  getBalance : Except String Nat
  sdk : SdkEnv
  rest : RestEnv
  chain : ChainEnv

/-- Result of `main`: the process exit code and whether execution reached the
submission step (`callFetchUSDPrice`). -/
structure MainResult where
  exitCode : Nat
  reachedSubmission : Bool
deriving Repr, DecidableEq

/-- `main` (lines 326-364): exit 1 when `PRIVATE_KEY` is falsy or the
contract address is the placeholder; otherwise construct the script, check
the balance, call the contract, monitor (which cannot throw), and exit 1
from the catch on any error, implicitly 0 on success.  The RPC URL is never
examined. -/
def mainRun (cfg : Config) (env : MainEnv) : MainResult :=
  if privateKeyFalsy cfg then { exitCode := 1, reachedSubmission := false }
  else if cfg.YOUR_CONTRACT_ADDRESS = contractAddressPlaceholder then
    { exitCode := 1, reachedSubmission := false }
  else
    match env.initResult with
    | .error _ => { exitCode := 1, reachedSubmission := false }
    | .ok _ =>
      match env.getBalance with
      | .error _ => { exitCode := 1, reachedSubmission := false }
      | .ok b =>
        let _ := checkBalance b
        match (callFetchUSDPrice env.sdk env.rest env.chain).result with
        | .error _ => { exitCode := 1, reachedSubmission := true }
        | .ok _ => { exitCode := 0, reachedSubmission := true }

/-! ### Concrete environments used for evaluation -/

/-- An SDK environment whose primary path succeeds. -/
def sdkEnvOk : SdkEnv :=
  { getLatestPriceFeeds :=
      .ok [{ obs := { price := 250000000000, expo := -8, publishTime := 1700000000 } }],
    hasGetPriceUpdatesData := true,
    getPriceUpdatesData := fun _ => ["0xdeadbeef"],
    hasGetPriceFeedsUpdateData := false,
    getPriceFeedsUpdateData := fun _ => [],
    serialize := fun _ => "" }

/-- An SDK environment whose `getLatestPriceFeeds` call rejects. -/
def sdkEnvFail : SdkEnv :=
  { getLatestPriceFeeds := .error "network error",
    hasGetPriceUpdatesData := false,
    getPriceUpdatesData := fun _ => [],
    hasGetPriceFeedsUpdateData := false,
    getPriceFeedsUpdateData := fun _ => [],
    serialize := fun _ => "" }

/-- A REST environment in which both Hermes endpoints succeed with one feed
and one VAA. -/
def restEnvOk : RestEnv :=
  { priceFeedsResp :=
      .ok { ok := true, status := 200,
            json := [{ price := { price := 250000000000, expo := -8,
                                  publishTime := 1700000000 } }] },
    vaasResp := .ok { ok := true, status := 200, json := ["UE5BVQ=="] },
    base64Decode := fun _ => [80, 78, 65, 85] }

/-- A REST environment whose first fetch rejects. -/
def restEnvFail : RestEnv :=
  { priceFeedsResp := .error "fetch failed",
    vaasResp := .error "fetch failed",
    base64Decode := fun _ => [] }

/-- A chain environment in which every call succeeds. -/
def chainEnvOk : ChainEnv :=
  { getUpdateFee := fun _ => .ok 1,
    fetchUSDPrice := fun _ => .ok { hash := "0xabc" },
    txWait := fun _ => .ok { blockNumber := 123, gasUsed := 21000 } }

/-- A chain environment whose submission rejects with an
insufficient-funds message. -/
def chainEnvInsufficient : ChainEnv :=
  { getUpdateFee := fun _ => .ok 1,
    fetchUSDPrice := fun _ => .error "insufficient funds for gas * price + value",
    txWait := fun _ => .ok { blockNumber := 0, gasUsed := 0 } }

/-- An error message containing both recognized patterns. -/
def bothPatternsMsg : String :=
  "insufficient funds after execution reverted"

/-- A chain environment whose submission rejects with `bothPatternsMsg`. -/
def chainEnvBothPatterns : ChainEnv :=
  { getUpdateFee := fun _ => .ok 1,
    fetchUSDPrice := fun _ => .error bothPatternsMsg,
    txWait := fun _ => .ok { blockNumber := 0, gasUsed := 0 } }

/-- A configuration with the RPC URL left at its unset-variable default, a
set private key and a set contract address. -/
def cfgDefaultRpc : Config :=
  { SEPOLIA_RPC_URL := rpcUrlPlaceholder,
    PRIVATE_KEY := some "0xabc123",
    YOUR_CONTRACT_ADDRESS := "0x1111111111111111111111111111111111111111" }

/-- A configuration with no private key in the environment. -/
def cfgNoKey : Config :=
  { SEPOLIA_RPC_URL := rpcUrlPlaceholder,
    PRIVATE_KEY := none,
    YOUR_CONTRACT_ADDRESS := "0x1111111111111111111111111111111111111111" }

/-- A main environment in which every external call succeeds (balance 0 wei). -/
def mainEnvOk : MainEnv :=
  { initResult := .ok (),
    getBalance := .ok 0,
    sdk := sdkEnvOk,
    rest := restEnvOk,
    chain := chainEnvOk }

/-- A monitor environment on the subscription path that delivers one update
long after any reasonable duration. -/
def monitorEnvLateDelivery : MonitorEnv :=
  { hasSubscribe := true,
    subDeliversAt := fun t => t == 1000000000,
    pollResult := fun _ => .error "unused" }

/-! ### Helper lemmas -/

/-- Hex digits produced for values below 16 are lower-case hex digits. -/
theorem hexDigitChar_isLowerHexDigit {n : Nat} (h : n < 16) :
    isHexDigitLower (hexDigitChar n) = true := by
  interval_cases n <;> decide

/-- Every character of a hex-encoded byte list is a lower-case hex digit. -/
theorem bytesToHex_chars (bs : List Nat) :
    ∀ c ∈ (bytesToHex bs).data, isHexDigitLower c = true := by
  induction bs with
  | nil => intro c hc; simp [bytesToHex] at hc
  | cons b bs ih =>
    intro c hc
    rw [bytesToHex, String.data_append] at hc
    rcases List.mem_append.mp hc with h | h
    · have hbyte : (byteToHex b).data =
          [hexDigitChar (b / 16 % 16), hexDigitChar (b % 16)] := rfl
      rw [hbyte] at h
      simp only [List.mem_cons, List.not_mem_nil, or_false] at h
      rcases h with h | h
      · rw [h]; exact hexDigitChar_isLowerHexDigit (Nat.mod_lt _ (by norm_num))
      · rw [h]; exact hexDigitChar_isLowerHexDigit (Nat.mod_lt _ (by norm_num))
    · exact ih c h

/-- Data of a "0x"-prefixed string. -/
theorem data_append_0x (s : String) :
    ("0x" ++ s).data = '0' :: 'x' :: s.data := by
  rw [String.data_append]
  rfl

/-- A "0x"-prefixed string is never empty. -/
theorem append_0x_ne_empty (s : String) : ("0x" ++ s) ≠ "" := by
  intro h
  have hd := congrArg String.data h
  rw [data_append_0x] at hd
  exact List.noConfusion hd

/-- A "0x"-prefixed string passes the prefix check. -/
theorem startsWithChars_0x (s : String) :
    startsWithChars "0x".data ("0x" ++ s).data = true := by
  rw [data_append_0x]
  rfl

/-! ### Claim C4 -/

/-- C4: on both the SDK path (line 89) and the REST path (lines 138-139) the
decoded human-readable price equals price × 10^exponent within ±1e-9; JS
numbers are modelled as exact rationals, so the difference is exactly 0. -/
theorem decoded_price_is_price_times_ten_pow_expo (obs : PriceObs) :
    |readablePriceSdk obs - specDecodedPrice obs.price obs.expo| ≤ 1 / 1000000000 ∧
    |readablePriceRest obs - specDecodedPrice obs.price obs.expo| ≤ 1 / 1000000000 := by
  unfold readablePriceSdk readablePriceRest specDecodedPrice
  norm_num

/-! ### Claim C1 -/

/-- C1: whenever `callFetchUSDPrice` reaches the submission, the transaction
request carries as `value` exactly the fee returned by the `getUpdateFee`
query on the same payload, and `gasLimit` 500000. -/
theorem submission_value_is_fee_and_gas_capped (sdk : SdkEnv) (rest : RestEnv)
    (chain : ChainEnv) (req : TxRequest)
    (h : (callFetchUSDPrice sdk rest chain).sent = some req) :
    chain.getUpdateFee req.priceUpdateData = Except.ok req.value ∧
    req.gasLimit = 500000 := by
  unfold callFetchUSDPrice at h
  split at h
  · simp at h
  · rename_i priceUpdateData hpud
    split at h
    · simp at h
    · rename_i updateFee hfee
      split at h
      · rename_i msg hsend
        simp only [Option.some.injEq] at h
        subst h
        exact ⟨hfee, rfl⟩
      · rename_i tx hsendok
        split at h
        · rename_i msg hwait
          simp only [Option.some.injEq] at h
          subst h
          exact ⟨hfee, rfl⟩
        · rename_i receipt hwait
          simp only [Option.some.injEq] at h
          subst h
          exact ⟨hfee, rfl⟩

/-- Request observed in the concrete all-success run. -/
def reqWitness : TxRequest :=
  { priceUpdateData := ["0xdeadbeef"], value := 1, gasLimit := 500000 }

/-- Witness for C1 on the all-success environments. -/
theorem submission_value_is_fee_and_gas_capped_witness :
    chainEnvOk.getUpdateFee reqWitness.priceUpdateData = Except.ok reqWitness.value ∧
    reqWitness.gasLimit = 500000 :=
  submission_value_is_fee_and_gas_capped sdkEnvOk restEnvOk chainEnvOk reqWitness rfl

/-! ### Claim C5 -/

/-- C5: the payload submitted to the contract is exactly the one returned by
`getPriceUpdateData` in the same invocation, and the `getUpdateFee` query
received that same payload — no caching, transformation or substitution. -/
theorem payload_passed_unmodified_fetch_to_submission (sdk : SdkEnv) (rest : RestEnv)
    (chain : ChainEnv) (req : TxRequest)
    (h : (callFetchUSDPrice sdk rest chain).sent = some req) :
    (getPriceUpdateData sdk rest).result = Except.ok req.priceUpdateData ∧
    (callFetchUSDPrice sdk rest chain).feeArg = some req.priceUpdateData := by
  unfold callFetchUSDPrice at h ⊢
  split at h
  · simp at h
  · rename_i priceUpdateData hpud
    split at h
    · simp at h
    · rename_i updateFee hfee
      split at h
      · rename_i msg hsend
        simp only [Option.some.injEq] at h
        subst h
        exact ⟨hpud, by simp [hpud, hfee, hsend]⟩
      · rename_i tx hsendok
        split at h
        · rename_i msg hwait
          simp only [Option.some.injEq] at h
          subst h
          exact ⟨hpud, by simp [hpud, hfee, hsendok, hwait]⟩
        · rename_i receipt hwait
          simp only [Option.some.injEq] at h
          subst h
          exact ⟨hpud, by simp [hpud, hfee, hsendok, hwait]⟩

/-- Witness for C5 on the all-success environments. -/
theorem payload_passed_unmodified_fetch_to_submission_witness :
    (getPriceUpdateData sdkEnvOk restEnvOk).result = Except.ok reqWitness.priceUpdateData ∧
    (callFetchUSDPrice sdkEnvOk restEnvOk chainEnvOk).feeArg = some reqWitness.priceUpdateData :=
  payload_passed_unmodified_fetch_to_submission sdkEnvOk restEnvOk chainEnvOk reqWitness rfl

/-! ### Claim C2 -/

/-- C2: if the primary SDK path throws, the REST fallback is invoked exactly
once and its outcome is returned; a successful fallback payload is exactly
the VAA list, each element a non-empty "0x"-prefixed hex encoding of the
base64-decoded VAA bytes. -/
theorem rest_fallback_invoked_once_with_hex_payload (sdk : SdkEnv) (rest : RestEnv)
    (e : String) (h : primaryUpdateData sdk = Except.error e) :
    (getPriceUpdateData sdk rest).restCalls = 1 ∧
    (getPriceUpdateData sdk rest).result = getPriceUpdateDataViaRest rest ∧
    (∀ payload, getPriceUpdateDataViaRest rest = Except.ok payload →
      ∃ vaaResponse, rest.vaasResp = Except.ok vaaResponse ∧
        payload = vaaResponse.json.map
          (fun vaa => "0x" ++ bytesToHex (rest.base64Decode vaa)) ∧
        ∀ p ∈ payload, p ≠ "" ∧ startsWithChars "0x".data p.data = true ∧
          ∀ c ∈ p.data.drop 2, isHexDigitLower c = true) := by
  refine ⟨?_, ?_, ?_⟩
  · unfold getPriceUpdateData
    rw [h]
  · unfold getPriceUpdateData
    rw [h]
  · intro payload hok
    unfold getPriceUpdateDataViaRest at hok
    split at hok
    · exact absurd hok (by simp)
    · rename_i response hresp
      split at hok
      · exact absurd hok (by simp)
      · split at hok
        · exact absurd hok (by simp)
        · split at hok
          · exact absurd hok (by simp)
          · rename_i vaaResponse hvaa
            split at hok
            · exact absurd hok (by simp)
            · simp only [Except.ok.injEq] at hok
              subst hok
              refine ⟨vaaResponse, hvaa, rfl, ?_⟩
              intro p hp
              rcases List.mem_map.mp hp with ⟨vaa, hvmem, hpv⟩
              subst hpv
              refine ⟨append_0x_ne_empty _, startsWithChars_0x _, ?_⟩
              intro c hc
              rw [data_append_0x] at hc
              exact bytesToHex_chars _ c hc

/-- Witness for C2: failing SDK environment, successful REST environment. -/
theorem rest_fallback_invoked_once_with_hex_payload_witness :
    (getPriceUpdateData sdkEnvFail restEnvOk).restCalls = 1 ∧
    (getPriceUpdateData sdkEnvFail restEnvOk).result = getPriceUpdateDataViaRest restEnvOk :=
  ⟨(rest_fallback_invoked_once_with_hex_payload sdkEnvFail restEnvOk "network error" rfl).1,
   (rest_fallback_invoked_once_with_hex_payload sdkEnvFail restEnvOk "network error" rfl).2.1⟩

/-! ### Claim C3 -/

/-- C3: when the primary path throws and the REST fallback also fails,
`getPriceUpdateData` propagates the fallback error unchanged, with one
primary attempt and one fallback attempt, no retries. -/
theorem both_paths_exhausted_propagates_fallback_error (sdk : SdkEnv) (rest : RestEnv)
    (e₁ e₂ : String) (h1 : primaryUpdateData sdk = Except.error e₁)
    (h2 : getPriceUpdateDataViaRest rest = Except.error e₂) :
    (getPriceUpdateData sdk rest).result = Except.error e₂ ∧
    (getPriceUpdateData sdk rest).primaryCalls = 1 ∧
    (getPriceUpdateData sdk rest).restCalls = 1 := by
  unfold getPriceUpdateData
  rw [h1]
  exact ⟨h2, rfl, rfl⟩

/-- Witness for C3: both environments fail. -/
theorem both_paths_exhausted_propagates_fallback_error_witness :
    (getPriceUpdateData sdkEnvFail restEnvFail).result = Except.error "fetch failed" ∧
    (getPriceUpdateData sdkEnvFail restEnvFail).primaryCalls = 1 ∧
    (getPriceUpdateData sdkEnvFail restEnvFail).restCalls = 1 :=
  both_paths_exhausted_propagates_fallback_error sdkEnvFail restEnvFail
    "network error" "fetch failed" rfl rfl

/-! ### Claim C6 -/

/-- C6 counterexample: with a failure message containing both recognized
patterns, the if/else-if chain prints only the insufficient-funds hint; the
execution-reverted hint is absent even though the message contains
"execution reverted", refuting the claim as stated. -/
theorem hint_chain_counterexample :
    (callFetchUSDPrice sdkEnvOk restEnvOk chainEnvBothPatterns).result =
      Except.error bothPatternsMsg ∧
    strIncludes bothPatternsMsg "execution reverted" = true ∧
    tipExecutionReverted ∉ (callFetchUSDPrice sdkEnvOk restEnvOk chainEnvBothPatterns).logs ∧
    (callFetchUSDPrice sdkEnvOk restEnvOk chainEnvBothPatterns).logs =
      [contractErrorLog bothPatternsMsg, tipInsufficientFunds] := by
  refine ⟨rfl, ?_, ?_, ?_⟩ <;> decide

/-- C6 (amended): when `callFetchUSDPrice` fails it prints the error log and
then at most one hint chosen by the if/else-if chain — the insufficient-funds
hint when the message contains "insufficient funds", else the
execution-reverted hint when it contains "execution reverted" — and the
underlying error is rethrown (the result is that same error). -/
theorem catch_prints_single_hint_then_rethrows (sdk : SdkEnv) (rest : RestEnv)
    (chain : ChainEnv) (msg : String)
    (h : (callFetchUSDPrice sdk rest chain).result = Except.error msg) :
    (callFetchUSDPrice sdk rest chain).logs = catchLogs msg := by
  unfold callFetchUSDPrice at h ⊢
  split at h
  · rename_i msg₀ hpud
    simp only [Except.error.injEq] at h
    simp only [hpud]
    rw [h]
  · rename_i priceUpdateData hpud
    split at h
    · rename_i msg₀ hfee
      simp only [Except.error.injEq] at h
      simp only [hpud, hfee]
      rw [h]
    · rename_i updateFee hfee
      split at h
      · rename_i msg₀ hsend
        simp only [Except.error.injEq] at h
        simp only [hpud, hfee, hsend]
        rw [h]
      · rename_i tx hsendok
        split at h
        · rename_i msg₀ hwait
          simp only [Except.error.injEq] at h
          simp only [hpud, hfee, hsendok, hwait]
          rw [h]
        · rename_i receipt hwait
          simp at h

/-- Witness for C6 on an insufficient-funds submission failure. -/
theorem catch_prints_single_hint_then_rethrows_witness :
    (callFetchUSDPrice sdkEnvOk restEnvOk chainEnvInsufficient).logs =
      catchLogs "insufficient funds for gas * price + value" :=
  catch_prints_single_hint_then_rethrows sdkEnvOk restEnvOk chainEnvInsufficient
    "insufficient funds for gas * price + value" rfl

/-! ### Claim C7 -/

/-- C7: `checkBalance` returns the balance in every case and never throws;
it warns exactly when the balance is strictly below 0.01 ETH; and under a
valid configuration the workflow continues past the balance check to the
submission step whether or not the warning was printed. -/
theorem low_balance_warns_but_continues (balance : Nat) :
    (checkBalance balance).balance = balance ∧
    (formatEther balance < 1 / 100 → (checkBalance balance).logs = [lowBalanceWarning]) ∧
    (1 / 100 ≤ formatEther balance → (checkBalance balance).logs = []) ∧
    (∀ cfg env, privateKeyFalsy cfg = false →
      cfg.YOUR_CONTRACT_ADDRESS ≠ contractAddressPlaceholder →
      env.initResult = Except.ok () → env.getBalance = Except.ok balance →
      (mainRun cfg env).reachedSubmission = true) := by
  refine ⟨rfl, ?_, ?_, ?_⟩
  · intro h
    have h' : formatEther balance < 100⁻¹ := by rwa [one_div] at h
    simp [checkBalance, h']
  · intro h
    have h' : ¬ formatEther balance < 100⁻¹ := by
      rw [← one_div]
      exact not_lt.mpr h
    simp [checkBalance, h']
  · intro cfg env hpk haddr hinit hbal
    cases hcall : (callFetchUSDPrice env.sdk env.rest env.chain).result <;>
      simp [mainRun, hpk, haddr, hinit, hbal, hcall]

/-- Witness for C7 at balance 0 wei under a valid configuration. -/
theorem low_balance_warns_but_continues_witness :
    (checkBalance 0).balance = 0 ∧
    (checkBalance 0).logs = [lowBalanceWarning] ∧
    (mainRun cfgDefaultRpc mainEnvOk).reachedSubmission = true :=
  ⟨(low_balance_warns_but_continues 0).1,
   (low_balance_warns_but_continues 0).2.1 (by norm_num [formatEther]),
   (low_balance_warns_but_continues 0).2.2.2 cfgDefaultRpc mainEnvOk rfl
     (by decide) rfl rfl⟩

/-! ### Claim C8 -/

/-- C8 counterexample: with the RPC URL still at its unset-variable
placeholder but the key and address set, `main` performs the workflow and
exits 0 — the RPC endpoint is never validated, refuting the claim that each
of the three configuration values is checked. -/
theorem rpc_url_not_validated_counterexample :
    cfgDefaultRpc.SEPOLIA_RPC_URL = rpcUrlPlaceholder ∧
    (mainRun cfgDefaultRpc mainEnvOk).exitCode = 0 ∧
    (mainRun cfgDefaultRpc mainEnvOk).reachedSubmission = true := by
  refine ⟨rfl, ?_, ?_⟩ <;> decide

/-- C8 (amended): `main` validates only the wallet private key (JS
truthiness) and the target contract address (placeholder check), exiting 1
on either validation failure before any network step; it exits 1 on any
later failure and implicitly 0 on success; the RPC endpoint is not examined. -/
theorem main_validates_key_and_address_exit_codes (cfg : Config) (env : MainEnv) :
    (privateKeyFalsy cfg = true →
      mainRun cfg env = { exitCode := 1, reachedSubmission := false }) ∧
    (cfg.YOUR_CONTRACT_ADDRESS = contractAddressPlaceholder →
      (mainRun cfg env).exitCode = 1) ∧
    ((mainRun cfg env).exitCode = 0 ∨ (mainRun cfg env).exitCode = 1) ∧
    (privateKeyFalsy cfg = false →
      cfg.YOUR_CONTRACT_ADDRESS ≠ contractAddressPlaceholder →
      ((mainRun cfg env).exitCode = 0 ↔
        env.initResult = Except.ok () ∧
        (∃ b, env.getBalance = Except.ok b) ∧
        (∃ receipt, (callFetchUSDPrice env.sdk env.rest env.chain).result =
          Except.ok receipt))) := by
  refine ⟨?_, ?_, ?_, ?_⟩
  · intro hpk
    simp [mainRun, hpk]
  · intro haddr
    by_cases hpk : privateKeyFalsy cfg = true
    · simp [mainRun, hpk]
    · simp [mainRun, hpk, haddr]
  · by_cases hpk : privateKeyFalsy cfg = true
    · simp [mainRun, hpk]
    · by_cases haddr : cfg.YOUR_CONTRACT_ADDRESS = contractAddressPlaceholder
      · simp [mainRun, hpk, haddr]
      · cases hinit : env.initResult with
        | error e => simp [mainRun, hpk, haddr, hinit]
        | ok u =>
          cases hbal : env.getBalance with
          | error e => simp [mainRun, hpk, haddr, hinit, hbal]
          | ok b =>
            cases hcall : (callFetchUSDPrice env.sdk env.rest env.chain).result <;>
              simp [mainRun, hpk, haddr, hinit, hbal, hcall]
  · intro hpk haddr
    cases hinit : env.initResult with
    | error e => simp [mainRun, hpk, haddr, hinit]
    | ok u =>
      cases hbal : env.getBalance with
      | error e => simp [mainRun, hpk, haddr, hinit, hbal]
      | ok b =>
        cases hcall : (callFetchUSDPrice env.sdk env.rest env.chain).result <;>
          simp [mainRun, hpk, haddr, hinit, hbal, hcall]

/-- Witness for C8: a missing key exits 1; the valid configuration with the
placeholder RPC URL exits 0. -/
theorem main_validates_key_and_address_exit_codes_witness :
    mainRun cfgNoKey mainEnvOk = { exitCode := 1, reachedSubmission := false } ∧
    (mainRun cfgDefaultRpc mainEnvOk).exitCode = 0 :=
  ⟨(main_validates_key_and_address_exit_codes cfgNoKey mainEnvOk).1 rfl,
   ((main_validates_key_and_address_exit_codes cfgDefaultRpc mainEnvOk).2.2.2
      rfl (by decide)).mpr
     ⟨rfl, ⟨0, rfl⟩, ⟨{ blockNumber := 123, gasUsed := 21000 }, rfl⟩⟩⟩

/-! ### Claim C9 -/

/-- C9 (code bug): on the subscription path `monitorPrices` never cancels the
subscription (the `setTimeout` at `duration` only prints a stop message), so
with a 30000 ms duration a delivery at t = 1,000,000,000 ms still produces a
price line; the same delivery time on the polling path produces none, since
the interval is cleared at `duration`. -/
theorem monitor_subscription_outputs_after_duration :
    priceOutputAt monitorEnvLateDelivery 30000 1000000000 = true ∧
    monitorEnvLateDelivery.hasSubscribe = true ∧
    priceOutputAt { monitorEnvLateDelivery with hasSubscribe := false }
      30000 1000000000 = false := by
  refine ⟨?_, rfl, ?_⟩ <;> decide

/-! ### Claim C10 -/

/-- C10: the percent-change division is guarded by the truthiness test on
`lastPrice`: with previous price 0 — in particular on the first sample from
the initial state — the printed change is the literal 0 with the neutral
arrow, and a computed percentage (the only place a division happens) arises
only when the previous price is nonzero. -/
theorem percent_change_division_guarded (st : MonitorState) (readablePrice : ℚ) :
    (st.lastPrice = 0 →
      (monitorStep st readablePrice).2.1 = ChangeVal.lit0 ∧
      (monitorStep st readablePrice).2.2 = "➡️") ∧
    (∀ q, (monitorStep st readablePrice).2.1 = ChangeVal.pct q → st.lastPrice ≠ 0) ∧
    (monitorStep monitorInit readablePrice).2.1 = ChangeVal.lit0 := by
  refine ⟨?_, ?_, ?_⟩
  · intro h
    simp [monitorStep, changeOf, arrowOf, h]
  · intro q hq hzero
    simp [monitorStep, changeOf, hzero] at hq
  · simp [monitorStep, changeOf, monitorInit]

/-- Witness for C10 on the initial monitor state. -/
theorem percent_change_division_guarded_witness :
    (monitorStep monitorInit 5).2.1 = ChangeVal.lit0 ∧
    (monitorStep monitorInit 5).2.2 = "➡️" :=
  (percent_change_division_guarded monitorInit 5).1 rfl

end PythDemo
